import Mathlib

/-!
Verification of the mp3-cover-art batch pipeline: a shallow embedding of
`src/logger.js` and `src/mp3Processor.js` and proofs of the documented
behavioural properties.  File-system effects (`fs.readdir`, `fs.pathExists`,
the output files ffmpeg writes, `fs.appendFile`) and child-process outcomes
are passed in explicitly as data; everything else follows the JavaScript
control flow line by line.
-/

namespace Mp3CoverArt

/-- Rank table `Logger.logLevels` in `src/logger.js`.  A lookup with an
unrecognised key is a JavaScript `undefined` property access, modelled as
`none`. -/
def logLevels : String → Option Nat
  | "debug" => some 0
  | "info" => some 1
  | "warn" => some 2
  | "error" => some 3
  | _ => none

/-- `Logger.shouldLog`: `this.logLevels[level] >= this.logLevels[this.logLevel]`.
In JavaScript a `>=` comparison in which either side is `undefined` evaluates
to `false`, hence the catch-all `false` when either lookup misses. -/
def shouldLog (logLevel level : String) : Bool :=
  match logLevels level, logLevels logLevel with
  | some a, some b => decide (b ≤ a)
  | _, _ => false

/-- JavaScript `toLowerCase` on the ASCII strings this tool handles: lower
each character.  (Stated over the character list so that it computes by
structural recursion.) -/
def lowerStr (s : String) : String := String.mk (s.toList.map Char.toLower)

/-- JavaScript `toUpperCase` on the ASCII strings this tool handles: upper
each character. -/
def upperStr (s : String) : String := String.mk (s.toList.map Char.toUpper)

/-- `Logger.formatMessage` applied to an already-generated timestamp string. -/
def formatMessage (ts level message : String) : String :=
  "[" ++ ts ++ "] [" ++ upperStr level ++ "] " ++ message

/-- The console line printed by the `switch` in `Logger.log`: the formatted
message wrapped in a level-specific ANSI colour, or plain for an
unrecognised level. -/
def consoleLine (level formattedMessage : String) : String :=
  match level with
  | "debug" => "\x1b[36m" ++ formattedMessage ++ "\x1b[0m"
  | "info" => "\x1b[32m" ++ formattedMessage ++ "\x1b[0m"
  | "warn" => "\x1b[33m" ++ formattedMessage ++ "\x1b[0m"
  | "error" => "\x1b[31m" ++ formattedMessage ++ "\x1b[0m"
  | _ => formattedMessage

/-- The state the `Logger` constructor establishes and `log` consults:
the configured threshold and the `logToFile` flag. -/
structure Logger where
  logLevel : String
  logToFile : Bool

/-- `Logger` construction including `initializeLogFile`: when `logToFile` is
set, the constructor tries to create the log directory and dated log file;
`initOk` says whether that `fs-extra` work succeeds.  On failure the `catch`
block prints a console error and does nothing else — in particular it leaves
`logToFile` untouched.  Returns the constructed logger together with the
console diagnostic, if any. -/
def mkLogger (logLevel : String) (logToFile : Bool) (initOk : Bool) :
    Logger × Option String :=
  if logToFile && !initOk then
    (⟨logLevel, logToFile⟩, some "Failed to initialize log file")
  else
    (⟨logLevel, logToFile⟩, none)

/-- Observable effects of one `Logger.log` call: whether `formatMessage` ran
(and with it `getTimestamp`), the console lines printed, the text actually
appended to the log file, and whether an `fs.appendFile` call was attempted
at all. -/
structure LogOutcome where
  timestamped : Bool
  console : List String
  fileAppend : Option String
  fileAttempt : Bool
deriving DecidableEq

/-- `Logger.log`.  `appendOk` models whether the `fs.appendFile` inside
`writeToFile` succeeds; `ts` is the string `getTimestamp` would return.  A
level below the threshold returns before any timestamp is generated or sink
written.  A failed append is caught inside `writeToFile` and reported as a
console error; nothing propagates. -/
def Logger.log (lg : Logger) (appendOk : Bool) (ts level message : String) :
    LogOutcome :=
  if shouldLog lg.logLevel level then
    let fm := formatMessage ts level message
    if lg.logToFile then
      if appendOk then
        ⟨true, [consoleLine level fm], some (fm ++ "\n"), true⟩
      else
        ⟨true, [consoleLine level fm, "Failed to write to log file"], none, true⟩
    else
      ⟨true, [consoleLine level fm], none, false⟩
  else
    ⟨false, [], none, false⟩

/-- Convenience wrapper `Logger.debug`. -/
def Logger.logDebug (lg : Logger) (appendOk : Bool) (ts message : String) : LogOutcome :=
  lg.log appendOk ts "debug" message

/-- Convenience wrapper `Logger.info`. -/
def Logger.logInfo (lg : Logger) (appendOk : Bool) (ts message : String) : LogOutcome :=
  lg.log appendOk ts "info" message

/-- Convenience wrapper `Logger.warn`. -/
def Logger.logWarn (lg : Logger) (appendOk : Bool) (ts message : String) : LogOutcome :=
  lg.log appendOk ts "warn" message

/-- Convenience wrapper `Logger.error`. -/
def Logger.logError (lg : Logger) (appendOk : Bool) (ts message : String) : LogOutcome :=
  lg.log appendOk ts "error" message

/-- The `LogOutcome` of a call suppressed by the threshold: no timestamp, no
console line, no file content, no append attempted. -/
def noOutput : LogOutcome := ⟨false, [], none, false⟩

/-- Position of the last dot in a character list, the scan underlying Node
`path.extname`. -/
def lastDot : List Char → Option Nat
  | [] => none
  | c :: cs =>
    match lastDot cs with
    | some i => some (i + 1)
    | none => if c = '.' then some 0 else none

/-- Node `path.extname` restricted to plain file names as returned by
`fs.readdir` (no path separators; `fs.readdir` never yields the special
entries "." and ".."): the suffix starting at the last dot, empty when there
is no dot or the only dot is the leading character. -/
def extname (name : String) : String :=
  match lastDot name.toList with
  | none => ""
  | some 0 => ""
  | some i => String.mk (name.toList.drop i)

/-- Node `path.join dir name` for the calls in `mp3Processor.js` (a directory
joined with a nonempty child name, POSIX separator). -/
def pathJoin (dir name : String) : String := dir ++ "/" ++ name

/-- Node `path.basename`: everything after the last separator. -/
def basename (p : String) : String :=
  String.mk ((p.toList.reverse.takeWhile (fun c => c != '/')).reverse)

/-- `Mp3Processor.getMp3Files` applied to the `fs.readdir` listing `files` of
`folderPath`: keep the entries whose lower-cased `path.extname` is ".mp3"
and prefix each with the folder path.  The `logger.info` count line it emits
appears as the `Event.infoFound` event of `processFolder`. -/
def getMp3Files (folderPath : String) (files : List String) : List String :=
  (files.filter (fun file => lowerStr (extname file) == ".mp3")).map
    (fun file => pathJoin folderPath file)

/-- Outcome of one `applyCoverArt` child process for a given (input, cover,
output) triple.  `failure` covers both a non-zero ffmpeg exit and a spawn
error — both reject the promise and land in the same `catch` of the batch
loop.  `leftFile` records whether the failed ffmpeg run left a (partial)
file behind at the output path, something the JavaScript does not control
and does not clean up. -/
inductive ConvResult where
  | success
  | failure (leftFile : Bool)
deriving DecidableEq

/-- The log lines `processFolder` and its callees emit, one constructor per
call site, carrying the data interpolated into the message. -/
inductive Event where
  | infoFound (count : Nat)
  | warnNoFiles
  | infoStart (count : Nat)
  | infoProcessing (fileName : String)
  | infoCompleted (fileName : String)
  | warnSkip (fileName : String)
  | errorFailed (fileName : String)
  | summary (total succeeded failed skipped : Nat)
  | infoSaved (outputFolder : String)
deriving DecidableEq

/-- State carried through the `for` loop of `processFolder`: the two counters
declared before the loop, the log trace, and `fs.pathExists` over the output
tree (updated when ffmpeg writes an output file). -/
structure LoopState where
  successCount : Nat
  failureCount : Nat
  events : List Event
  fs : String → Bool

/-- One iteration of the `for` loop in `processFolder`.  The destination is
the output folder joined with the input file's base name; if it already
exists the iteration logs a skip warning and `continue`s, otherwise
`applyCoverArt` runs: on success `successCount` is incremented and the
output file now exists, on rejection the `catch` block logs the error and
increments `failureCount` (leaving whatever partial file ffmpeg wrote). -/
def processFile (coverArtPath outputFolder : String)
    (conv : String → String → String → ConvResult)
    (st : LoopState) (inputFile : String) : LoopState :=
  let fileName := basename inputFile
  let outputFile := pathJoin outputFolder fileName
  if st.fs outputFile then
    { st with events := st.events ++ [Event.warnSkip fileName] }
  else
    match conv inputFile coverArtPath outputFile with
    | ConvResult.success =>
      { st with
        successCount := st.successCount + 1,
        events := st.events ++ [Event.infoProcessing fileName, Event.infoCompleted fileName],
        fs := fun p => p == outputFile || st.fs p }
    | ConvResult.failure leftFile =>
      { st with
        failureCount := st.failureCount + 1,
        events := st.events ++ [Event.infoProcessing fileName, Event.errorFailed fileName],
        fs := if leftFile then (fun p => p == outputFile || st.fs p) else st.fs }

/-- The tally the summary block prints.  `skipped` is not a counter in the
source: the summary line computes `mp3Files.length - successCount -
failureCount`. -/
structure Tally where
  totalDiscovered : Nat
  succeeded : Nat
  failed : Nat
  skipped : Nat
deriving DecidableEq

/-- Result of one `processFolder` call: the printed tally, the log trace, and
the final state of the output tree. -/
structure RunResult where
  tally : Tally
  events : List Event
  fs : String → Bool

/-- `Mp3Processor.processFolder`.  `files` is the `fs.readdir` listing of
`inputFolder`; `fs0` is `fs.pathExists` over the output tree at call time;
`conv` gives each `applyCoverArt` outcome.  With zero matches the function
logs a warning and returns at once: no summary block, no `ensureDir`, loop
never entered.  `fs.ensureDir outputFolder` creates only a directory, never
a file, so it leaves the `pathExists` view of files unchanged. -/
def processFolder (inputFolder : String) (files : List String)
    (coverArtPath outputFolder : String)
    (conv : String → String → String → ConvResult)
    (fs0 : String → Bool) : RunResult :=
  let mp3Files := getMp3Files inputFolder files
  if mp3Files.length = 0 then
    { tally := ⟨0, 0, 0, 0⟩,
      events := [Event.infoFound 0, Event.warnNoFiles],
      fs := fs0 }
  else
    let final := mp3Files.foldl (processFile coverArtPath outputFolder conv) ⟨0, 0, [], fs0⟩
    let skipped := mp3Files.length - final.successCount - final.failureCount
    { tally := ⟨mp3Files.length, final.successCount, final.failureCount, skipped⟩,
      events :=
        [Event.infoFound mp3Files.length, Event.infoStart mp3Files.length] ++ final.events
          ++ [Event.summary mp3Files.length final.successCount final.failureCount skipped]
          ++ (if final.successCount > 0 then [Event.infoSaved outputFolder] else []),
      fs := final.fs }

/-- Outcome of spawning the external binary in `validateFFmpeg`: a spawn
error (the `error` event fires, the process never ran) or a `close` event
with an exit code, where `none` models Node's `null` code for a process
killed by a signal. -/
inductive SpawnOutcome where
  | spawnError
  | exited (code : Option Int)
deriving DecidableEq

/-- `Mp3Processor.validateFFmpeg`: resolves `code === 0` on `close` and
`false` on `error`; every branch resolves, none rejects or throws. -/
def validateFFmpeg : SpawnOutcome → Bool
  | SpawnOutcome.spawnError => false
  | SpawnOutcome.exited code => code == some (0 : Int)

/-- Number of already-exists skip warnings in a log trace. -/
def countSkips (events : List Event) : Nat :=
  events.countP (fun e => match e with | Event.warnSkip _ => true | _ => false)

/-- Whether a log event is the head line of the processing-summary block. -/
def isSummary : Event → Bool
  | Event.summary _ _ _ _ => true
  | _ => false

lemma countSkips_append (es fs : List Event) :
    countSkips (es ++ fs) = countSkips es + countSkips fs := by
  simp [countSkips, List.countP_append]

lemma countSkips_nil : countSkips [] = 0 := rfl

lemma countSkips_skip_one (n : String) : countSkips [Event.warnSkip n] = 1 := rfl

lemma countSkips_header (n : Nat) :
    countSkips [Event.infoFound n, Event.infoStart n] = 0 := rfl

lemma countSkips_summary_one (a b c d : Nat) :
    countSkips [Event.summary a b c d] = 0 := rfl

lemma countSkips_saved_if (c : Prop) [Decidable c] (o : String) :
    countSkips (if c then [Event.infoSaved o] else []) = 0 := by
  split <;> rfl

lemma countSkips_success_pair (n : String) :
    countSkips [Event.infoProcessing n, Event.infoCompleted n] = 0 := rfl

lemma countSkips_failure_pair (n : String) :
    countSkips [Event.infoProcessing n, Event.errorFailed n] = 0 := rfl

/-- Each loop iteration settles exactly one candidate: it bumps the success
counter, the failure counter, or the skip-warning count, by one. -/
lemma processFile_count (cover outFol : String)
    (conv : String → String → String → ConvResult) (st : LoopState) (f : String) :
    (processFile cover outFol conv st f).successCount
        + (processFile cover outFol conv st f).failureCount
        + countSkips (processFile cover outFol conv st f).events
      = st.successCount + st.failureCount + countSkips st.events + 1 := by
  simp only [processFile]
  split
  · simp [countSkips_append, countSkips_skip_one]
    omega
  · split
    · simp [countSkips_append, countSkips_success_pair]
      omega
    · simp [countSkips_append, countSkips_failure_pair]
      omega

/-- Loop-wide form of `processFile_count`. -/
lemma foldl_count (cover outFol : String)
    (conv : String → String → String → ConvResult) (l : List String) (st : LoopState) :
    (l.foldl (processFile cover outFol conv) st).successCount
        + (l.foldl (processFile cover outFol conv) st).failureCount
        + countSkips (l.foldl (processFile cover outFol conv) st).events
      = st.successCount + st.failureCount + countSkips st.events + l.length := by
  induction l generalizing st with
  | nil => simp
  | cons f l ih =>
    simp only [List.foldl_cons, List.length_cons]
    rw [ih, processFile_count]
    omega

/-- A loop iteration never deletes an output file. -/
lemma processFile_fs_mono (cover outFol : String)
    (conv : String → String → String → ConvResult) (st : LoopState) (f p : String)
    (h : st.fs p = true) : (processFile cover outFol conv st f).fs p = true := by
  simp only [processFile]
  split
  · exact h
  · split
    · simp [h]
    · split
      · simp [h]
      · exact h

/-- The whole loop never deletes an output file. -/
lemma foldl_fs_mono (cover outFol : String)
    (conv : String → String → String → ConvResult) (l : List String) (st : LoopState)
    (p : String) (h : st.fs p = true) :
    (l.foldl (processFile cover outFol conv) st).fs p = true := by
  induction l generalizing st with
  | nil => exact h
  | cons f l ih =>
    simp only [List.foldl_cons]
    exact ih _ (processFile_fs_mono cover outFol conv st f p h)

/-- The failure counter never decreases across an iteration. -/
lemma processFile_fail_mono (cover outFol : String)
    (conv : String → String → String → ConvResult) (st : LoopState) (f : String) :
    st.failureCount ≤ (processFile cover outFol conv st f).failureCount := by
  simp only [processFile]
  split
  · exact Nat.le_refl _
  · split
    · exact Nat.le_refl _
    · simp

/-- An iteration that leaves the failure counter alone leaves the candidate's
destination file in existence: it took the skip branch (the file was already
there) or the success branch (the conversion created it). -/
lemma processFile_no_fail_dest (cover outFol : String)
    (conv : String → String → String → ConvResult) (st : LoopState) (f : String) :
    (processFile cover outFol conv st f).failureCount = st.failureCount + 1
      ∨ (processFile cover outFol conv st f).fs (pathJoin outFol (basename f)) = true := by
  simp only [processFile]
  split
  · right; assumption
  · split
    · right; simp
    · left; rfl

/-- The failure counter never decreases across the loop. -/
lemma foldl_fail_mono (cover outFol : String)
    (conv : String → String → String → ConvResult) (l : List String) (st : LoopState) :
    st.failureCount ≤ (l.foldl (processFile cover outFol conv) st).failureCount := by
  induction l generalizing st with
  | nil => exact Nat.le_refl _
  | cons f l ih =>
    simp only [List.foldl_cons]
    exact Nat.le_trans (processFile_fail_mono cover outFol conv st f) (ih _)

/-- If the loop finishes with as many failures as it started with, every
processed candidate's destination file exists afterwards: each iteration
either skipped (the destination pre-existed and is never deleted) or
succeeded (the conversion created it). -/
lemma foldl_no_fail_dest (cover outFol : String)
    (conv : String → String → String → ConvResult) (l : List String) (st : LoopState)
    (h : (l.foldl (processFile cover outFol conv) st).failureCount = st.failureCount) :
    ∀ f ∈ l, (l.foldl (processFile cover outFol conv) st).fs
      (pathJoin outFol (basename f)) = true := by
  induction l generalizing st with
  | nil => intro f hf; cases hf
  | cons g l ih =>
    intro f hf
    simp only [List.foldl_cons] at h ⊢
    have hmono1 := processFile_fail_mono cover outFol conv st g
    have hmono2 := foldl_fail_mono cover outFol conv l (processFile cover outFol conv st g)
    have hstep : (processFile cover outFol conv st g).failureCount = st.failureCount := by
      omega
    rcases List.mem_cons.mp hf with hf | hf
    · subst hf
      rcases processFile_no_fail_dest cover outFol conv st f with hbad | hdest
      · omega
      · exact foldl_fs_mono cover outFol conv l _ _ hdest
    · exact ih _ (by omega) f hf

/-- If every candidate's destination already exists, the loop only appends
skip warnings: counters and the output tree are untouched. -/
lemma foldl_all_dest_skip (cover outFol : String)
    (conv : String → String → String → ConvResult) (l : List String) (st : LoopState)
    (h : ∀ f ∈ l, st.fs (pathJoin outFol (basename f)) = true) :
    l.foldl (processFile cover outFol conv) st
      = { st with events := st.events ++ l.map (fun f => Event.warnSkip (basename f)) } := by
  induction l generalizing st with
  | nil => simp
  | cons g l ih =>
    simp only [List.foldl_cons, List.map_cons]
    have hg : st.fs (pathJoin outFol (basename g)) = true := h g (by simp)
    have hstep : processFile cover outFol conv st g
        = { st with events := st.events ++ [Event.warnSkip (basename g)] } := by
      simp only [processFile]
      simp [hg]
    rw [hstep, ih]
    · simp
    · intro f hf
      exact h f (by simp [hf])

/-- Claim C1: for every `processFolder` run that completes, the reported
tally satisfies `totalDiscovered = succeeded + failed + skipped`, and the
skipped figure is exactly the number of candidates that were skipped because
their destination file already existed (counted here as the skip warnings in
the run's log trace). -/
theorem c1_tally_invariant (inFol : String) (files : List String)
    (cover outFol : String) (conv : String → String → String → ConvResult)
    (fs0 : String → Bool) :
    (processFolder inFol files cover outFol conv fs0).tally.totalDiscovered
        = (processFolder inFol files cover outFol conv fs0).tally.succeeded
          + (processFolder inFol files cover outFol conv fs0).tally.failed
          + (processFolder inFol files cover outFol conv fs0).tally.skipped
      ∧ (processFolder inFol files cover outFol conv fs0).tally.skipped
        = countSkips (processFolder inFol files cover outFol conv fs0).events := by
  simp only [processFolder]
  split
  · exact ⟨rfl, rfl⟩
  · have hcount := foldl_count cover outFol conv (getMp3Files inFol files) ⟨0, 0, [], fs0⟩
    dsimp only at hcount
    rw [countSkips_nil] at hcount
    dsimp only
    rw [countSkips_append, countSkips_append, countSkips_append, countSkips_header,
      countSkips_summary_one, countSkips_saved_if]
    omega

/-- Claim C3: one failing conversion does not stop the batch.  For any run
whose discovery yields three candidates with pairwise distinct destination
paths, none of which pre-exists in the output folder, where the second
conversion fails (non-zero exit or spawn error, with or without a partial
output file left behind) and the other two succeed, the final tally is
total 3, succeeded 2, failed 1, skipped 0. -/
theorem c3_failure_isolated (inFol : String) (files : List String)
    (cover outFol : String) (conv : String → String → String → ConvResult)
    (fs0 : String → Bool) (f1 f2 f3 : String) (b : Bool)
    (hdisc : getMp3Files inFol files = [f1, f2, f3])
    (h1 : conv f1 cover (pathJoin outFol (basename f1)) = ConvResult.success)
    (h2 : conv f2 cover (pathJoin outFol (basename f2)) = ConvResult.failure b)
    (h3 : conv f3 cover (pathJoin outFol (basename f3)) = ConvResult.success)
    (hfs1 : fs0 (pathJoin outFol (basename f1)) = false)
    (hfs2 : fs0 (pathJoin outFol (basename f2)) = false)
    (hfs3 : fs0 (pathJoin outFol (basename f3)) = false)
    (h21 : (pathJoin outFol (basename f2) == pathJoin outFol (basename f1)) = false)
    (h31 : (pathJoin outFol (basename f3) == pathJoin outFol (basename f1)) = false)
    (h32 : (pathJoin outFol (basename f3) == pathJoin outFol (basename f2)) = false) :
    (processFolder inFol files cover outFol conv fs0).tally = ⟨3, 2, 1, 0⟩ := by
  simp only [processFolder, hdisc]
  cases b <;>
    simp [processFile, h1, h2, h3, hfs1, hfs2, hfs3, h21, h31, h32]

/-- Witness for `c3_failure_isolated`: three discovered files of which the
second one fails to convert. -/
theorem c3_failure_isolated_witness :
    (processFolder "in" ["a.mp3", "b.mp3", "c.mp3"] "c.jpg" "out"
        (fun f _ _ => if f == "in/b.mp3" then ConvResult.failure false
          else ConvResult.success)
        (fun _ => false)).tally = ⟨3, 2, 1, 0⟩ :=
  c3_failure_isolated "in" ["a.mp3", "b.mp3", "c.mp3"] "c.jpg" "out"
    (fun f _ _ => if f == "in/b.mp3" then ConvResult.failure false
      else ConvResult.success)
    (fun _ => false) "in/a.mp3" "in/b.mp3" "in/c.mp3" false
    (by decide) (by decide) (by decide) (by decide) (by decide) (by decide)
    (by decide) (by decide) (by decide) (by decide)

/-- Claim C4: when discovery finds no matching file, `processFolder` logs a
warning, its tally is all zeroes, and the contents of the output folder are
untouched (the run returns before the loop; in fact it returns even before
`ensureDir`, which in any case creates no file). -/
theorem c4_zero_matches (inFol : String) (files : List String)
    (cover outFol : String) (conv : String → String → String → ConvResult)
    (fs0 : String → Bool) (h : getMp3Files inFol files = []) :
    (processFolder inFol files cover outFol conv fs0).tally = ⟨0, 0, 0, 0⟩
      ∧ Event.warnNoFiles ∈ (processFolder inFol files cover outFol conv fs0).events
      ∧ (processFolder inFol files cover outFol conv fs0).fs = fs0 := by
  simp [processFolder, h]

/-- Witness for `c4_zero_matches` at a listing with no MP3 entry. -/
theorem c4_zero_matches_witness :
    (processFolder "in" ["c.wav"] "c.jpg" "out" (fun _ _ _ => ConvResult.success)
          (fun _ => false)).tally = ⟨0, 0, 0, 0⟩
      ∧ Event.warnNoFiles ∈ (processFolder "in" ["c.wav"] "c.jpg" "out"
          (fun _ _ _ => ConvResult.success) (fun _ => false)).events
      ∧ (processFolder "in" ["c.wav"] "c.jpg" "out" (fun _ _ _ => ConvResult.success)
          (fun _ => false)).fs = (fun _ => false) :=
  c4_zero_matches "in" ["c.wav"] "c.jpg" "out" (fun _ _ _ => ConvResult.success)
    (fun _ => false) (by decide)

/-- Claim C5: discovery filters the folder listing strictly by a
case-insensitive `.mp3` extension match: the listing `a.mp3, b.MP3, c.wav,
d.txt` yields exactly the two candidates for `a.mp3` and `b.MP3`, in listing
order, each exactly once. -/
theorem c5_discovery_filter (dir : String) :
    getMp3Files dir ["a.mp3", "b.MP3", "c.wav", "d.txt"]
      = [pathJoin dir "a.mp3", pathJoin dir "b.MP3"] := by
  simp +decide [getMp3Files]

/-- Claim C9: the availability probe resolves `true` exactly when the spawned
process started and exited with code 0; a spawn error, a non-zero exit and a
signal-killed (null-code) close all resolve `false`.  `validateFFmpeg` is a
total function into `Bool`: every spawn outcome resolves, none rejects. -/
theorem c9_validate_ffmpeg (o : SpawnOutcome) :
    validateFFmpeg o = true ↔ o = SpawnOutcome.exited (some 0) := by
  cases o with
  | spawnError => simp [validateFFmpeg]
  | exited code => simp [validateFFmpeg]

/-- Claim C2 as stated is false on the code: if a conversion fails on the
first run without leaving an output file, the second identical run finds no
destination for that candidate, re-invokes the converter and records another
failure instead of a skip, so `skipped` falls short of `totalDiscovered`. -/
theorem c2_counterexample :
    (processFolder "in" ["a.mp3"] "c.jpg" "out" (fun _ _ _ => ConvResult.failure false)
        (processFolder "in" ["a.mp3"] "c.jpg" "out"
          (fun _ _ _ => ConvResult.failure false) (fun _ => false)).fs).tally.skipped
      ≠ (processFolder "in" ["a.mp3"] "c.jpg" "out" (fun _ _ _ => ConvResult.failure false)
        (processFolder "in" ["a.mp3"] "c.jpg" "out"
          (fun _ _ _ => ConvResult.failure false) (fun _ => false)).fs).tally.totalDiscovered := by
  decide

/-- Claim C2 (amended): after a first run that reported no failures, an
identical second run over the untouched output folder skips every candidate
(their destinations all exist), so it reports succeeded 0, failed 0 and
skipped equal to totalDiscovered, and it leaves the output tree exactly as
the first run left it: nothing is re-converted or overwritten. -/
theorem c2_second_run_skips_all (inFol : String) (files : List String)
    (cover outFol : String) (conv : String → String → String → ConvResult)
    (fs0 : String → Bool)
    (hnofail : (processFolder inFol files cover outFol conv fs0).tally.failed = 0) :
    (processFolder inFol files cover outFol conv
        (processFolder inFol files cover outFol conv fs0).fs).tally.succeeded = 0
      ∧ (processFolder inFol files cover outFol conv
          (processFolder inFol files cover outFol conv fs0).fs).tally.failed = 0
      ∧ (processFolder inFol files cover outFol conv
          (processFolder inFol files cover outFol conv fs0).fs).tally.skipped
        = (processFolder inFol files cover outFol conv
            (processFolder inFol files cover outFol conv fs0).fs).tally.totalDiscovered
      ∧ (processFolder inFol files cover outFol conv
          (processFolder inFol files cover outFol conv fs0).fs).fs
        = (processFolder inFol files cover outFol conv fs0).fs := by
  by_cases hz : (getMp3Files inFol files).length = 0
  · simp [processFolder, hz]
  · have hr1 : (processFolder inFol files cover outFol conv fs0).fs
        = ((getMp3Files inFol files).foldl (processFile cover outFol conv)
            ⟨0, 0, [], fs0⟩).fs := by
      simp only [processFolder, if_neg hz]
    have hfail : ((getMp3Files inFol files).foldl (processFile cover outFol conv)
        ⟨0, 0, [], fs0⟩).failureCount = 0 := by
      have h := hnofail
      simp only [processFolder, if_neg hz] at h
      exact h
    have hdest := foldl_no_fail_dest cover outFol conv (getMp3Files inFol files)
      ⟨0, 0, [], fs0⟩ (by simpa using hfail)
    have hskip := foldl_all_dest_skip cover outFol conv (getMp3Files inFol files)
      ⟨0, 0, [], (processFolder inFol files cover outFol conv fs0).fs⟩
      (by intro f hf; rw [hr1]; exact hdest f hf)
    simp only [processFolder, if_neg hz] at hskip ⊢
    rw [hskip]
    simp

/-- Witness for `c2_second_run_skips_all`: a first run that converts its one
candidate, then an identical second run that skips it. -/
theorem c2_second_run_skips_all_witness :
    (processFolder "in" ["a.mp3"] "c.jpg" "out" (fun _ _ _ => ConvResult.success)
        (processFolder "in" ["a.mp3"] "c.jpg" "out" (fun _ _ _ => ConvResult.success)
          (fun _ => false)).fs).tally.succeeded = 0
      ∧ (processFolder "in" ["a.mp3"] "c.jpg" "out" (fun _ _ _ => ConvResult.success)
          (processFolder "in" ["a.mp3"] "c.jpg" "out" (fun _ _ _ => ConvResult.success)
            (fun _ => false)).fs).tally.failed = 0
      ∧ (processFolder "in" ["a.mp3"] "c.jpg" "out" (fun _ _ _ => ConvResult.success)
          (processFolder "in" ["a.mp3"] "c.jpg" "out" (fun _ _ _ => ConvResult.success)
            (fun _ => false)).fs).tally.skipped
        = (processFolder "in" ["a.mp3"] "c.jpg" "out" (fun _ _ _ => ConvResult.success)
            (processFolder "in" ["a.mp3"] "c.jpg" "out" (fun _ _ _ => ConvResult.success)
              (fun _ => false)).fs).tally.totalDiscovered
      ∧ (processFolder "in" ["a.mp3"] "c.jpg" "out" (fun _ _ _ => ConvResult.success)
          (processFolder "in" ["a.mp3"] "c.jpg" "out" (fun _ _ _ => ConvResult.success)
            (fun _ => false)).fs).fs
        = (processFolder "in" ["a.mp3"] "c.jpg" "out" (fun _ _ _ => ConvResult.success)
            (fun _ => false)).fs :=
  c2_second_run_skips_all "in" ["a.mp3"] "c.jpg" "out"
    (fun _ _ _ => ConvResult.success) (fun _ => false) (by decide)

/-- Claim C6: with the threshold configured to `warn`, `debug` and `info`
calls are complete no-ops on both sinks, while `warn` and `error` calls
print their console line and (when the append succeeds) write the formatted
line to the log file; generally, any call whose level ranks below the
threshold returns before generating a timestamp or touching either sink. -/
theorem c6_level_filtering (ltf appendOk : Bool) (ts m : String) :
    ((Logger.mk "warn" ltf).logDebug appendOk ts m = noOutput
        ∧ (Logger.mk "warn" ltf).logInfo appendOk ts m = noOutput)
      ∧ (((Logger.mk "warn" true).logWarn true ts m).console
            = [consoleLine "warn" (formatMessage ts "warn" m)]
          ∧ ((Logger.mk "warn" true).logWarn true ts m).fileAppend
            = some (formatMessage ts "warn" m ++ "\n")
          ∧ ((Logger.mk "warn" true).logError true ts m).console
            = [consoleLine "error" (formatMessage ts "error" m)]
          ∧ ((Logger.mk "warn" true).logError true ts m).fileAppend
            = some (formatMessage ts "error" m ++ "\n"))
      ∧ (∀ lg : Logger, ∀ level : String, shouldLog lg.logLevel level = false →
          lg.log appendOk ts level m = noOutput) := by
  refine ⟨⟨?_, ?_⟩, ⟨?_, ?_, ?_, ?_⟩, ?_⟩
  · simp [Logger.logDebug, Logger.log, shouldLog, logLevels, noOutput]
  · simp [Logger.logInfo, Logger.log, shouldLog, logLevels, noOutput]
  · simp [Logger.logWarn, Logger.log, shouldLog, logLevels]
  · simp [Logger.logWarn, Logger.log, shouldLog, logLevels]
  · simp [Logger.logError, Logger.log, shouldLog, logLevels]
  · simp [Logger.logError, Logger.log, shouldLog, logLevels]
  · intro lg level h
    simp [Logger.log, h, noOutput]

/-- Witness for `c6_level_filtering`, exercising the below-threshold no-op
branch at a concrete logger. -/
theorem c6_level_filtering_witness :
    (Logger.mk "warn" true).logDebug true "T" "m" = noOutput
      ∧ (Logger.mk "warn" true).log true "T" "info" "m" = noOutput :=
  ⟨(c6_level_filtering true true "T" "m").1.1,
    (c6_level_filtering true true "T" "m").2.2 (Logger.mk "warn" true) "info" (by decide)⟩

/-- Claim C7 is false on the code at a zero-candidate run: when discovery
finds nothing, `processFolder` returns right after the warning and no
summary block is ever emitted. -/
theorem c7_counterexample :
    ((processFolder "in" ["c.wav"] "c.jpg" "out" (fun _ _ _ => ConvResult.success)
        (fun _ => false)).events.any isSummary) = false := by
  decide

/-- Claim C7 (amended): for every run that does not end in a fatal error and
whose discovery finds at least one candidate — however many individual files
fail — the summary block reporting the final tally is emitted; a
zero-candidate run instead emits only a warning and no summary. -/
theorem c7_summary_when_candidates (inFol : String) (files : List String)
    (cover outFol : String) (conv : String → String → String → ConvResult)
    (fs0 : String → Bool) (h : getMp3Files inFol files ≠ []) :
    Event.summary
        (processFolder inFol files cover outFol conv fs0).tally.totalDiscovered
        (processFolder inFol files cover outFol conv fs0).tally.succeeded
        (processFolder inFol files cover outFol conv fs0).tally.failed
        (processFolder inFol files cover outFol conv fs0).tally.skipped
      ∈ (processFolder inFol files cover outFol conv fs0).events := by
  have hz : ¬ (getMp3Files inFol files).length = 0 := by
    simpa [List.length_eq_zero] using h
  simp only [processFolder, if_neg hz]
  simp [List.mem_append]

/-- Witness for `c7_summary_when_candidates`: a one-candidate run in which
that single file fails still emits the summary block. -/
theorem c7_summary_when_candidates_witness :
    Event.summary
        (processFolder "in" ["a.mp3"] "c.jpg" "out"
          (fun _ _ _ => ConvResult.failure false) (fun _ => false)).tally.totalDiscovered
        (processFolder "in" ["a.mp3"] "c.jpg" "out"
          (fun _ _ _ => ConvResult.failure false) (fun _ => false)).tally.succeeded
        (processFolder "in" ["a.mp3"] "c.jpg" "out"
          (fun _ _ _ => ConvResult.failure false) (fun _ => false)).tally.failed
        (processFolder "in" ["a.mp3"] "c.jpg" "out"
          (fun _ _ _ => ConvResult.failure false) (fun _ => false)).tally.skipped
      ∈ (processFolder "in" ["a.mp3"] "c.jpg" "out"
          (fun _ _ _ => ConvResult.failure false) (fun _ => false)).events :=
  c7_summary_when_candidates "in" ["a.mp3"] "c.jpg" "out"
    (fun _ _ _ => ConvResult.failure false) (fun _ => false) (by decide)

/-- Claim C8 is false on the code: after a failed file-sink initialization
the constructed logger still has `logToFile = true` and the next
enabled-level call does attempt a file write — the sink is not disabled. -/
theorem c8_counterexample :
    (mkLogger "info" true false).1.logToFile = true
      ∧ ((mkLogger "info" true false).1.log false "T" "info" "m").fileAttempt = true := by
  decide

/-- Claim C8 (amended): a failed file-sink initialization emits a
console-only error and never aborts, but it does not disable the file sink:
the logger keeps `logToFile = true`, and a later call at an enabled level
still attempts the append; when that append fails as well, the failure is
caught and reported as a console error while the call still prints its
normal console line. -/
theorem c8_init_failure_keeps_sink (lvl level ts m : String)
    (hlog : shouldLog lvl level = true) :
    (mkLogger lvl true false).2 = some "Failed to initialize log file"
      ∧ (mkLogger lvl true false).1 = Logger.mk lvl true
      ∧ ((mkLogger lvl true false).1.log false ts level m).fileAttempt = true
      ∧ ((mkLogger lvl true false).1.log false ts level m).fileAppend = none
      ∧ ((mkLogger lvl true false).1.log false ts level m).console
        = [consoleLine level (formatMessage ts level m), "Failed to write to log file"] := by
  refine ⟨rfl, rfl, ?_, ?_, ?_⟩ <;> simp [mkLogger, Logger.log, hlog]

/-- Witness for `c8_init_failure_keeps_sink` at threshold `info` and level
`error`. -/
theorem c8_init_failure_keeps_sink_witness :
    (mkLogger "info" true false).2 = some "Failed to initialize log file"
      ∧ (mkLogger "info" true false).1 = Logger.mk "info" true
      ∧ ((mkLogger "info" true false).1.log false "T" "error" "m").fileAttempt = true
      ∧ ((mkLogger "info" true false).1.log false "T" "error" "m").fileAppend = none
      ∧ ((mkLogger "info" true false).1.log false "T" "error" "m").console
        = [consoleLine "error" (formatMessage "T" "error" "m"),
            "Failed to write to log file"] :=
  c8_init_failure_keeps_sink "info" "error" "T" "m" (by decide)

/-- Claim C10: constructing the logger with a threshold outside the
recognized set makes the threshold rank lookup come back undefined, the
level comparison is therefore false for every level, and the generic `log`
as well as all four convenience wrappers silently produce no console and no
file output for any message. -/
theorem c10_unknown_threshold (thr : String) (hthr : logLevels thr = none)
    (ltf appendOk : Bool) (ts level m : String) :
    (Logger.mk thr ltf).log appendOk ts level m = noOutput
      ∧ (Logger.mk thr ltf).logDebug appendOk ts m = noOutput
      ∧ (Logger.mk thr ltf).logInfo appendOk ts m = noOutput
      ∧ (Logger.mk thr ltf).logWarn appendOk ts m = noOutput
      ∧ (Logger.mk thr ltf).logError appendOk ts m = noOutput := by
  have hs : ∀ lv : String, shouldLog thr lv = false := by
    intro lv
    simp only [shouldLog, hthr]
    cases logLevels lv <;> rfl
  refine ⟨?_, ?_, ?_, ?_, ?_⟩ <;>
    simp [Logger.log, Logger.logDebug, Logger.logInfo, Logger.logWarn, Logger.logError,
      hs, noOutput]

/-- Witness for `c10_unknown_threshold` at the unrecognised threshold string
`verbose`. -/
theorem c10_unknown_threshold_witness :
    (Logger.mk "verbose" true).log true "T" "error" "m" = noOutput
      ∧ (Logger.mk "verbose" true).logDebug true "T" "m" = noOutput
      ∧ (Logger.mk "verbose" true).logInfo true "T" "m" = noOutput
      ∧ (Logger.mk "verbose" true).logWarn true "T" "m" = noOutput
      ∧ (Logger.mk "verbose" true).logError true "T" "m" = noOutput :=
  c10_unknown_threshold "verbose" (by decide) true true "T" "error" "m"

end Mp3CoverArt
